import Mathlib

/-!
Verification of the camera frame-acquisition core of the
highlander-racing-discord-printer-bot repository (src/BambuCamera.js).

The JavaScript class PrinterCameraNode is embedded shallowly:

* bytes are natural numbers, byte buffers are List Nat;
* the mutable fields of a PrinterCameraNode instance become the fields of
  the Session structure (string-valued config that is only used in log
  messages — hostname, port — is omitted; username and accessCode are kept
  as ASCII byte lists because the authentication record is built from them);
* each socket / timer callback of the source becomes one constructor of
  the Ev type, and step interprets it as a pure state transition;
* the data handler's while-loop (lines 140-186 of the source) becomes
  drainLoop, written with an explicit fuel argument; one loop iteration
  that recurses either consumes at least 16 buffered bytes via a header
  read or flips isReceivingImage from true to false, so
  buffer.length + data.length + 2 iterations always suffice and the fuel
  chosen by dataStep is never exhausted on any input;
* promise settlement (the single resolve/reject of the capture operation)
  is recorded in the ghost field result; scheduledDelays and totalConnects
  are ghost instrumentation recording every reconnect delay that is
  scheduled and every invocation of _connect ("connection attempt");
  authSent records the authentication record written by the TLS connect
  callback.
-/

/-- JPEG_START_MARKER from src/BambuCamera.js line 7. -/
def JPEG_START_MARKER : List Nat := [0xff, 0xd8, 0xff, 0xe0]

/-- JPEG_END_MARKER from src/BambuCamera.js line 8. -/
def JPEG_END_MARKER : List Nat := [0xff, 0xd9]

/-- Buffer.readUInt32LE(0): the first four bytes, little-endian. -/
def readUInt32LE (b : List Nat) : Nat :=
  b.getD 0 0 + b.getD 1 0 * 256 + b.getD 2 0 * 65536 + b.getD 3 0 * 16777216

/-- The size sanity bound from line 150 of the source: 15 * 1024 * 1024. -/
def MAX_PAYLOAD : Nat := 15 * 1024 * 1024

/-- The kinds of failure with which the capture promise can be rejected,
one per reject site in src/BambuCamera.js. -/
inductive CaptureFailure where
  /-- reject in start() when a connection is already in progress (line 66). -/
  | alreadyInProgress
  /-- reject in the operation-timeout callback (line 82). -/
  | operationTimeout
  /-- reject in _connect when the node is no longer alive (line 115). -/
  | aborted
  /-- reject in the error handler when not alive (line 199). -/
  | socketError
  /-- reject in the close handler when not alive and closed with error (line 211). -/
  | closedUnexpectedly
  /-- reject in _scheduleReconnect when attempts are exhausted (line 235). -/
  | connectExhausted
deriving Repr, DecidableEq

/-- The settlement of one capture operation: resolve(bytes) or reject(kind). -/
inductive CaptureResult where
  | success (bytes : List Nat)
  | failure (kind : CaptureFailure)
deriving Repr, DecidableEq

/-- The mutable state of one PrinterCameraNode instance
(constructor, src/BambuCamera.js lines 11-33), plus ghost fields
result / authSent / scheduledDelays / totalConnects (see file header). -/
structure Session where
  username : List Nat
  accessCode : List Nat
  timeoutMs : Int
  alive : Bool
  socket : Bool
  reconnectTimeout : Option Nat
  operationTimeout : Option Int
  currentFrameBuffer : List Nat
  expectedPayloadSize : Nat
  isReceivingImage : Bool
  connectAttempts : Nat
  hasResolvedOrRejected : Bool
  lastFrameData : Option (List Nat)
  result : Option CaptureResult
  authSent : Option (List Nat)
  scheduledDelays : List Nat
  totalConnects : Nat
deriving Repr, DecidableEq

/-- stop() (lines 91-108): clear the alive flag, both timers and the
socket handle.  The method never touches hasResolvedOrRejected or the
settled result. -/
def stopStep (s : Session) : Session :=
  { s with alive := false, operationTimeout := none,
           reconnectTimeout := none, socket := false }

/-- Lines 168-179 of the data handler: record lastFrameData, settle the
promise with the frame bytes if not already settled (clearing the
operation timer), then stop(). -/
def acceptFrame (s : Session) (imageData : List Nat) : Session :=
  let s1 := { s with lastFrameData := some imageData }
  let s2 :=
    if s1.hasResolvedOrRejected = false then
      { s1 with hasResolvedOrRejected := true, operationTimeout := none,
                result := some (CaptureResult.success imageData) }
    else s1
  stopStep s2

/-- Lines 141-156 of the data handler: the AwaitingHeader phase of one
while-loop iteration.  none means break (fewer than 16 buffered bytes).
A malformed declared size (0 or above 15 MiB) resets the mode AND clears
the whole accumulation buffer (line 153: Buffer.alloc(0)). -/
def headerPhase (s : Session) : Option Session :=
  if s.isReceivingImage then some s
  else if 16 ≤ s.currentFrameBuffer.length then
    let size := readUInt32LE s.currentFrameBuffer
    let s1 := { s with expectedPayloadSize := size,
                       currentFrameBuffer := s.currentFrameBuffer.drop 16,
                       isReceivingImage := true }
    if size = 0 ∨ MAX_PAYLOAD < size then
      some { s1 with isReceivingImage := false, currentFrameBuffer := [] }
    else some s1
  else none

/-- Outcome of the payload phase of one while-loop iteration. -/
inductive PayloadOutcome where
  /-- return out of the handler (line 179): a frame was accepted. -/
  | ret (s : Session)
  /-- break (line 184): not enough bytes for the declared payload. -/
  | brk (s : Session)
  /-- fall through to the next while-iteration. -/
  | next (s : Session)

/-- Lines 158-185 of the data handler: the AwaitingPayload phase of one
while-loop iteration. -/
def payloadPhase (s : Session) : PayloadOutcome :=
  if s.isReceivingImage then
    if s.expectedPayloadSize ≤ s.currentFrameBuffer.length then
      let imageData := s.currentFrameBuffer.take s.expectedPayloadSize
      let s2 := { s with
        currentFrameBuffer := s.currentFrameBuffer.drop s.expectedPayloadSize,
        isReceivingImage := false }
      if 0 < imageData.length ∧
         imageData.take 4 = JPEG_START_MARKER ∧
         imageData.drop (imageData.length - 2) = JPEG_END_MARKER then
        PayloadOutcome.ret (acceptFrame s2 imageData)
      else
        PayloadOutcome.next { s2 with expectedPayloadSize := 0 }
    else PayloadOutcome.brk s
  else PayloadOutcome.next s

/-- The while-loop of the data handler (lines 140-186), with fuel.
The loop guard is line 140; each iteration runs the header phase then
the payload phase, exactly as in the source. -/
def drainLoop : Nat → Session → Session
  | 0, s => s
  | n + 1, s =>
    if 0 < s.currentFrameBuffer.length ∧ s.alive = true ∧
       s.hasResolvedOrRejected = false then
      match headerPhase s with
      | none => s
      | some s1 =>
        match payloadPhase s1 with
        | PayloadOutcome.ret s2 => s2
        | PayloadOutcome.brk s2 => s2
        | PayloadOutcome.next s2 => drainLoop n s2
    else s

/-- The socket data handler (lines 135-187): guard on line 136, append the
chunk (line 138), then drain.  The fuel always suffices (file header). -/
def dataStep (s : Session) (data : List Nat) : Session :=
  if s.alive = false ∨ s.hasResolvedOrRejected = true then s
  else
    drainLoop (s.currentFrameBuffer.length + data.length + 2)
      { s with currentFrameBuffer := s.currentFrameBuffer ++ data }

/-- _connect (lines 111-124): reject-if-dead guard, then increment the
attempt counter and open a socket.  totalConnects is ghost
instrumentation counting every connection attempt ever made. -/
def connectStep (s : Session) : Session :=
  if s.alive = false then
    if s.hasResolvedOrRejected = false then
      { s with hasResolvedOrRejected := true,
               result := some (CaptureResult.failure CaptureFailure.aborted) }
    else s
  else
    { s with connectAttempts := s.connectAttempts + 1,
             totalConnects := s.totalConnects + 1,
             socket := true }

/-- _scheduleReconnect (lines 224-245): bail out if dead or settled, clear
any pending reconnect timer, settle ConnectExhausted once more than 2
attempts have been made, otherwise schedule a reconnect in 3000 ms.
scheduledDelays is ghost instrumentation recording each scheduled delay. -/
def scheduleReconnect (s : Session) : Session :=
  if s.alive = false ∨ s.hasResolvedOrRejected = true then s
  else
    let s1 := { s with reconnectTimeout := none }
    if 2 < s1.connectAttempts then
      if s1.hasResolvedOrRejected = false then
        stopStep { s1 with hasResolvedOrRejected := true,
                           result := some (CaptureResult.failure
                             CaptureFailure.connectExhausted) }
      else s1
    else
      { s1 with reconnectTimeout := some 3000,
                scheduledDelays := s1.scheduledDelays ++ [3000] }

/-- The events that can reach a running session: one constructor per
socket / timer callback of src/BambuCamera.js. -/
inductive Ev where
  /-- the tls.connect success callback (lines 126-133). -/
  | connectSuccess
  /-- the socket data handler (lines 135-187). -/
  | dataChunk (data : List Nat)
  /-- the socket error handler (lines 189-201); the flag tells whether
  err.code is ECONNRESET or ERR_STREAM_DESTROYED. -/
  | socketError (afterStopCode : Bool)
  /-- the socket close handler (lines 203-213). -/
  | socketClose (hadError : Bool)
  /-- the overall operation timer firing (lines 76-84). -/
  | opTimeoutFire
  /-- the reconnect timer firing (lines 242-244). -/
  | reconnectFire
  /-- an external call to stop() (lines 91-108). -/
  | stopCall
deriving Repr, DecidableEq

/-- _buildAuthData, written by the connect callback before anything is
read (lines 126-133): reset the attempt counter and the decoder state. -/
def connectSuccessStep (s : Session) (auth : List Nat) : Session :=
  { s with authSent := some auth,
           connectAttempts := 0,
           currentFrameBuffer := [],
           isReceivingImage := false,
           expectedPayloadSize := 0 }

/-- Buffer write of src at a given offset: overwrite src.length bytes of
buf starting at off (Buffer.copy / sequential writeUInt8 semantics for
in-bounds writes). -/
def writeBytes (buf : List Nat) (off : Nat) (src : List Nat) : List Nat :=
  buf.take off ++ src ++ buf.drop (off + src.length)

/-- _buildAuthData (lines 35-58): an 80-byte zeroed buffer; two 32-bit
little-endian constants 0x40 and 0x3000, two zero words, the username
bytes then an explicit zero-pad loop up to 32 bytes, the access-code
bytes then the same pad loop.  The running offset is threaded exactly as
in the source (Nat subtraction makes the pad empty when the field is 32
bytes or longer, matching the source's loop bound). -/
def _buildAuthData (username accessCode : List Nat) : List Nat :=
  let buf0 := List.replicate 80 0
  let buf1 := writeBytes buf0 0 [0x40, 0, 0, 0]
  let buf2 := writeBytes buf1 4 [0x00, 0x30, 0, 0]
  let buf3 := writeBytes buf2 8 [0, 0, 0, 0]
  let buf4 := writeBytes buf3 12 [0, 0, 0, 0]
  let buf5 := writeBytes buf4 16 username
  let off1 := 16 + username.length
  let buf6 := writeBytes buf5 off1 (List.replicate (32 - username.length) 0)
  let off2 := off1 + (32 - username.length)
  let buf7 := writeBytes buf6 off2 accessCode
  let off3 := off2 + accessCode.length
  writeBytes buf7 off3 (List.replicate (32 - accessCode.length) 0)

/-- One event of the session's life, as a pure state transition. -/
def step (s : Session) (e : Ev) : Session :=
  match e with
  | Ev.connectSuccess =>
      connectSuccessStep s (_buildAuthData s.username s.accessCode)
  | Ev.dataChunk data => dataStep s data
  | Ev.socketError code =>
      if s.hasResolvedOrRejected = true ∧ code = true then s
      else if s.alive = true ∧ s.hasResolvedOrRejected = false then
        scheduleReconnect s
      else if s.hasResolvedOrRejected = false then
        { s with hasResolvedOrRejected := true,
                 result := some (CaptureResult.failure CaptureFailure.socketError) }
      else s
  | Ev.socketClose hadError =>
      if s.alive = true ∧ s.hasResolvedOrRejected = false then
        scheduleReconnect s
      else if s.alive = false ∧ s.hasResolvedOrRejected = false ∧ hadError = true then
        { s with hasResolvedOrRejected := true,
                 result := some (CaptureResult.failure CaptureFailure.closedUnexpectedly) }
      else s
  | Ev.opTimeoutFire =>
      match s.operationTimeout with
      | none => s
      | some _ =>
        let s1 := { s with operationTimeout := none }
        if s1.hasResolvedOrRejected = false then
          stopStep { s1 with hasResolvedOrRejected := true,
                             result := some (CaptureResult.failure
                               CaptureFailure.operationTimeout) }
        else s1
  | Ev.reconnectFire =>
      match s.reconnectTimeout with
      | none => s
      | some _ => connectStep { s with reconnectTimeout := none }
  | Ev.stopCall => stopStep s

/-- The constructor (lines 11-33): a fresh, not-yet-started node. -/
def initialSession (username accessCode : List Nat) (timeoutMs : Int) : Session :=
  { username := username, accessCode := accessCode, timeoutMs := timeoutMs,
    alive := false, socket := false, reconnectTimeout := none,
    operationTimeout := none, currentFrameBuffer := [],
    expectedPayloadSize := 0, isReceivingImage := false,
    connectAttempts := 0, hasResolvedOrRejected := false,
    lastFrameData := none, result := none, authSent := none,
    scheduledDelays := [], totalConnects := 0 }

/-- start() on a fresh node (lines 60-89): the already-alive branch, the
alive / hasResolvedOrRejected reset, the operation timer installed only
when timeoutMs is positive, then the first _connect. -/
def startSession (username accessCode : List Nat) (timeoutMs : Int) : Session :=
  let s := initialSession username accessCode timeoutMs
  if s.alive = true then
    if s.hasResolvedOrRejected = false then
      { s with hasResolvedOrRejected := true,
               result := some (CaptureResult.failure
                 CaptureFailure.alreadyInProgress) }
    else s
  else
    let s1 := { s with alive := true, hasResolvedOrRejected := false }
    let s2 := if s1.timeoutMs > 0 then
        { s1 with operationTimeout := some s1.timeoutMs }
      else s1
    connectStep s2

/-- What the outer promise of captureSingleFrameFromPrinter is settled
with: either raw frame bytes or a file-system path. -/
inductive SettledValue where
  | bytes (b : List Nat)
  | filePath (p : List Char)
deriving Repr, DecidableEq

/-- The observable effect of the success callback of
captureSingleFrameFromPrinter (lines 281-302): the path the frame was
saved under, the bytes written there, and the value the outer promise was
resolved with. -/
structure SaveOutcome where
  savedPath : List Char
  written : List Nat
  settled : SettledValue
deriving Repr, DecidableEq

/-- Line 284: printerIp.replace of every dot and colon by an underscore. -/
def sanitizeHost (printerIp : List Char) : List Char :=
  printerIp.map (fun ch => if ch = '.' ∨ ch = ':' then '_' else ch)

/-- path.resolve(outputDir, outputFilename) of line 286, modelled with
simplified POSIX semantics: an absolute second segment wins, otherwise
the segments are joined with a single slash (normalisation and
cwd-relative resolution are omitted; the claims do not depend on them). -/
def pathResolve (dir file : List Char) : List Char :=
  if file.head? = some '/' then file
  else if dir.getLast? = some '/' then dir ++ file
  else dir ++ ['/'] ++ file

/-- The success callback passed to camera.start by
captureSingleFrameFromPrinter (lines 281-302): build the sanitised
filename, write the image bytes there, and resolve the OUTER promise with
the full image path (line 295) — not with the bytes.  The fs.mkdirSync /
fs.writeFileSync I/O is recorded in savedPath / written. -/
def captureSuccessCallback (outputDir printerIp : List Char)
    (imageBuffer : List Nat) : SaveOutcome :=
  let safePrinterName := sanitizeHost printerIp
  let outputFilename := safePrinterName ++ ['.', 'j', 'p', 'g']
  let fullImagePath := pathResolve outputDir outputFilename
  { savedPath := fullImagePath, written := imageBuffer,
    settled := SettledValue.filePath fullImagePath }

/-! ### Helper lemmas about the decoder -/

theorem readUInt32LE_append (b rest : List Nat) (h : 4 ≤ b.length) :
    readUInt32LE (b ++ rest) = readUInt32LE b := by
  unfold readUInt32LE
  rw [List.getD_append b rest 0 0 (by omega), List.getD_append b rest 0 1 (by omega),
      List.getD_append b rest 0 2 (by omega), List.getD_append b rest 0 3 (by omega)]

theorem drainLoop_step (n : Nat) (s : Session) :
    drainLoop (n + 1) s =
      if 0 < s.currentFrameBuffer.length ∧ s.alive = true ∧
         s.hasResolvedOrRejected = false then
        match headerPhase s with
        | none => s
        | some s1 =>
          match payloadPhase s1 with
          | PayloadOutcome.ret s2 => s2
          | PayloadOutcome.brk s2 => s2
          | PayloadOutcome.next s2 => drainLoop n s2
      else s := rfl

theorem headerPhase_fields (s s1 : Session) (h : headerPhase s = some s1) :
    s1.connectAttempts = s.connectAttempts ∧
    s1.operationTimeout = s.operationTimeout ∧
    s1.result = s.result ∧
    s1.hasResolvedOrRejected = s.hasResolvedOrRejected ∧
    s1.alive = s.alive := by
  unfold headerPhase at h
  dsimp only at h
  split at h
  · cases h
    exact ⟨rfl, rfl, rfl, rfl, rfl⟩
  · split at h
    · split at h
      · cases h
        exact ⟨rfl, rfl, rfl, rfl, rfl⟩
      · cases h
        exact ⟨rfl, rfl, rfl, rfl, rfl⟩
    · cases h

theorem drainLoop_spec (n : Nat) (s : Session) :
    (drainLoop n s).connectAttempts = s.connectAttempts ∧
    ((drainLoop n s).operationTimeout = none ∨
      (drainLoop n s).operationTimeout = s.operationTimeout) ∧
    ((drainLoop n s).result = s.result ∨
      ∃ b, (drainLoop n s).result = some (CaptureResult.success b)) := by
  induction n generalizing s with
  | zero => exact ⟨rfl, Or.inr rfl, Or.inl rfl⟩
  | succ n ih =>
    rw [drainLoop_step]
    split
    · cases hh : headerPhase s with
      | none => exact ⟨rfl, Or.inr rfl, Or.inl rfl⟩
      | some s1 =>
        obtain ⟨hca, hop, hres, _, _⟩ := headerPhase_fields s s1 hh
        dsimp only
        cases hp : payloadPhase s1 with
        | ret s2 =>
          dsimp only
          unfold payloadPhase at hp
          dsimp only at hp
          split at hp
          · split at hp
            · split at hp
              · cases hp
                unfold acceptFrame stopStep
                dsimp only
                split
                · exact ⟨hca, Or.inl rfl, Or.inr ⟨_, rfl⟩⟩
                · exact ⟨hca, Or.inl rfl, Or.inl hres⟩
              · cases hp
            · cases hp
          · cases hp
        | brk s2 =>
          dsimp only
          unfold payloadPhase at hp
          dsimp only at hp
          split at hp
          · split at hp
            · split at hp
              · cases hp
              · cases hp
            · cases hp
              exact ⟨hca, hop ▸ Or.inr rfl, Or.inl hres⟩
          · cases hp
        | next s2 =>
          dsimp only
          have h2 : s2.connectAttempts = s.connectAttempts ∧
              s2.operationTimeout = s.operationTimeout ∧
              s2.result = s.result := by
            unfold payloadPhase at hp
            dsimp only at hp
            split at hp
            · split at hp
              · split at hp
                · cases hp
                · cases hp
                  exact ⟨hca, hop, hres⟩
              · cases hp
            · cases hp
              exact ⟨hca, hop, hres⟩
          obtain ⟨ih1, ih2, ih3⟩ := ih s2
          refine ⟨ih1.trans h2.1, ?_, ?_⟩
          · rcases ih2 with h | h
            · exact Or.inl h
            · exact Or.inr (h.trans h2.2.1)
          · rcases ih3 with h | h
            · exact Or.inl (h.trans h2.2.2)
            · exact Or.inr h
    · exact ⟨rfl, Or.inr rfl, Or.inl rfl⟩

/-! ### Helper lemmas about session events -/

theorem step_preserves_settled (s : Session) (e : Ev)
    (h : s.hasResolvedOrRejected = true) :
    (step s e).result = s.result ∧
    (step s e).hasResolvedOrRejected = true := by
  cases e with
  | connectSuccess => exact ⟨rfl, h⟩
  | dataChunk data => simp [step, dataStep, h]
  | socketError code =>
    cases code <;> simp [step, h, scheduleReconnect, stopStep]
  | socketClose hadError => simp [step, h, scheduleReconnect]
  | opTimeoutFire =>
    cases hop : s.operationTimeout <;> simp [step, hop, h, stopStep]
  | reconnectFire =>
    cases hrc : s.reconnectTimeout with
    | none => simp [step, hrc, h]
    | some d => cases hal : s.alive <;> simp [step, hrc, connectStep, hal, h]
  | stopCall => exact ⟨rfl, h⟩

theorem scheduleReconnect_no_timer (s : Session)
    (h1 : s.operationTimeout = none)
    (h2 : s.result ≠ some (CaptureResult.failure CaptureFailure.operationTimeout)) :
    (scheduleReconnect s).operationTimeout = none ∧
    (scheduleReconnect s).result ≠
      some (CaptureResult.failure CaptureFailure.operationTimeout) := by
  unfold scheduleReconnect
  split
  · exact ⟨h1, h2⟩
  · dsimp only
    split
    · split
      · simp [stopStep]
      · exact ⟨h1, h2⟩
    · exact ⟨h1, h2⟩

theorem step_no_timer (s : Session) (e : Ev)
    (h1 : s.operationTimeout = none)
    (h2 : s.result ≠ some (CaptureResult.failure CaptureFailure.operationTimeout)) :
    (step s e).operationTimeout = none ∧
    (step s e).result ≠ some (CaptureResult.failure CaptureFailure.operationTimeout) := by
  cases e with
  | connectSuccess => exact ⟨h1, h2⟩
  | dataChunk data =>
    simp only [step, dataStep]
    split
    · exact ⟨h1, h2⟩
    · obtain ⟨-, hop, hres⟩ := drainLoop_spec
        (s.currentFrameBuffer.length + data.length + 2)
        { s with currentFrameBuffer := s.currentFrameBuffer ++ data }
      refine ⟨?_, ?_⟩
      · rcases hop with h | h
        · exact h
        · exact h.trans h1
      · rcases hres with h | ⟨b, h⟩
        · rw [h]
          exact h2
        · rw [h]
          simp
  | socketError code =>
    simp only [step]
    split
    · exact ⟨h1, h2⟩
    · split
      · exact scheduleReconnect_no_timer s h1 h2
      · split
        · simp [h1]
        · exact ⟨h1, h2⟩
  | socketClose hadError =>
    simp only [step]
    split
    · exact scheduleReconnect_no_timer s h1 h2
    · split
      · simp [h1]
      · exact ⟨h1, h2⟩
  | opTimeoutFire => simp [step, h1, h2]
  | reconnectFire =>
    cases hrc : s.reconnectTimeout with
    | none => simp [step, hrc, h1, h2]
    | some d =>
      simp only [step, hrc, connectStep]
      split
      · split <;> simp [h1, h2]
      · exact ⟨h1, h2⟩
  | stopCall => simp [step, stopStep, h2]

theorem step_totalConnects_stable (s : Session) (e : Ev)
    (h1 : s.hasResolvedOrRejected = true) (h2 : s.reconnectTimeout = none) :
    (step s e).totalConnects = s.totalConnects ∧
    (step s e).hasResolvedOrRejected = true ∧
    (step s e).reconnectTimeout = none := by
  cases e with
  | connectSuccess => exact ⟨rfl, h1, h2⟩
  | dataChunk data => simp [step, dataStep, h1, h2]
  | socketError code =>
    simp only [step]
    split
    · exact ⟨rfl, h1, h2⟩
    · split
      · simp [scheduleReconnect, h1, h2]
      · split
        · simp_all
        · exact ⟨rfl, h1, h2⟩
  | socketClose hadError =>
    simp only [step]
    split
    · simp [scheduleReconnect, h1, h2]
    · split
      · simp_all
      · exact ⟨rfl, h1, h2⟩
  | opTimeoutFire =>
    cases hop : s.operationTimeout with
    | none => simp [step, hop, h1, h2]
    | some d => simp [step, hop, h1, h2]
  | reconnectFire => simp [step, h2, h1]
  | stopCall => simp [step, stopStep, h1]

theorem totalConnects_trace_stable (s : Session) (evs : List Ev)
    (h1 : s.hasResolvedOrRejected = true) (h2 : s.reconnectTimeout = none) :
    (evs.foldl step s).totalConnects = s.totalConnects := by
  induction evs generalizing s with
  | nil => rfl
  | cons e es ih =>
    obtain ⟨p1, p2, p3⟩ := step_totalConnects_stable s e h1 h2
    exact (ih (step s e) p2 p3).trans p1

theorem no_timer_trace (s : Session) (evs : List Ev)
    (h1 : s.operationTimeout = none)
    (h2 : s.result ≠ some (CaptureResult.failure CaptureFailure.operationTimeout)) :
    (evs.foldl step s).operationTimeout = none ∧
    (evs.foldl step s).result ≠
      some (CaptureResult.failure CaptureFailure.operationTimeout) := by
  induction evs generalizing s with
  | nil => exact ⟨h1, h2⟩
  | cons e es ih =>
    obtain ⟨p1, p2⟩ := step_no_timer s e h1 h2
    exact ih (step s e) p1 p2

/-! ### Claim theorems -/

/-- Claim C1: for every session handling one capture request, at most one
CaptureResult is ever produced — once any of the settlement paths (frame
accepted, transport error, retries exhausted, operation timeout) has made
the session terminal, every later event, of any kind and in any order,
observes the terminal state and leaves the settled outcome unchanged. -/
theorem capture_settles_at_most_once (s : Session) (evs : List Ev)
    (h : s.hasResolvedOrRejected = true) :
    (evs.foldl step s).result = s.result ∧
    (evs.foldl step s).hasResolvedOrRejected = true := by
  induction evs generalizing s with
  | nil => exact ⟨rfl, h⟩
  | cons e es ih =>
    obtain ⟨h1, h2⟩ := step_preserves_settled s e h
    obtain ⟨h3, h4⟩ := ih (step s e) h2
    exact ⟨h3.trans h1, h4⟩

/-- Witness for C1: a session settled by the operation timeout keeps its
outcome across a stop, a close, a reconnect callback and more data. -/
theorem capture_settles_at_most_once_witness :
    ([Ev.stopCall, Ev.socketClose true, Ev.connectSuccess, Ev.reconnectFire,
      Ev.dataChunk [1, 2, 3]].foldl step
        (step (startSession [98] [49] 5) Ev.opTimeoutFire)).result
      = (step (startSession [98] [49] 5) Ev.opTimeoutFire).result ∧
    ([Ev.stopCall, Ev.socketClose true, Ev.connectSuccess, Ev.reconnectFire,
      Ev.dataChunk [1, 2, 3]].foldl step
        (step (startSession [98] [49] 5) Ev.opTimeoutFire)).hasResolvedOrRejected
      = true :=
  capture_settles_at_most_once _ _ (by decide)

/-- Claim C9: once the session has settled, any subsequent stop() call
leaves the settled outcome and the terminal flag unchanged, and repeating
stop() produces exactly the same state as calling it once. -/
theorem stop_after_settlement_noop (s : Session)
    (h : s.hasResolvedOrRejected = true) :
    (step s Ev.stopCall).result = s.result ∧
    (step s Ev.stopCall).hasResolvedOrRejected = true ∧
    step (step s Ev.stopCall) Ev.stopCall = step s Ev.stopCall :=
  ⟨rfl, h, rfl⟩

/-- Witness for C9 at a session settled by an erroring close after stop. -/
theorem stop_after_settlement_noop_witness :
    (step (step (step (startSession [] [] 0) Ev.stopCall)
        (Ev.socketClose true)) Ev.stopCall).result
      = (step (step (startSession [] [] 0) Ev.stopCall)
          (Ev.socketClose true)).result ∧
    (step (step (step (startSession [] [] 0) Ev.stopCall)
        (Ev.socketClose true)) Ev.stopCall).hasResolvedOrRejected = true ∧
    step (step (step (step (startSession [] [] 0) Ev.stopCall)
        (Ev.socketClose true)) Ev.stopCall) Ev.stopCall
      = step (step (step (startSession [] [] 0) Ev.stopCall)
          (Ev.socketClose true)) Ev.stopCall :=
  stop_after_settlement_noop _ (by decide)

/-- Claim C10: when the configured timeoutMs is not positive, start()
installs no overall operation timer, and no sequence of events can ever
settle the session with failure(OperationTimeout). -/
theorem no_timer_when_timeout_nonpositive (u c : List Nat) (t : Int)
    (ht : t ≤ 0) (evs : List Ev) :
    (startSession u c t).operationTimeout = none ∧
    (evs.foldl step (startSession u c t)).result ≠
      some (CaptureResult.failure CaptureFailure.operationTimeout) := by
  have hs : (startSession u c t).operationTimeout = none := by
    simp [startSession, initialSession, connectStep, show ¬(t > 0) by omega]
  have hr : (startSession u c t).result = none := by
    simp [startSession, initialSession, connectStep, show ¬(t > 0) by omega]
  refine ⟨hs, ?_⟩
  exact (no_timer_trace _ evs hs (by rw [hr]; simp)).2

/-- Witness for C10 with timeoutMs = 0 and a trace that tries to fire the
timer, close the socket and deliver data. -/
theorem no_timer_when_timeout_nonpositive_witness :
    (startSession [98] [49] 0).operationTimeout = none ∧
    ([Ev.opTimeoutFire, Ev.socketClose true, Ev.reconnectFire,
      Ev.dataChunk [0, 1]].foldl step (startSession [98] [49] 0)).result ≠
      some (CaptureResult.failure CaptureFailure.operationTimeout) :=
  no_timer_when_timeout_nonpositive [98] [49] 0 (by decide)
    [Ev.opTimeoutFire, Ev.socketClose true, Ev.reconnectFire,
     Ev.dataChunk [0, 1]]

/-- Claim C4: a session whose transport closes on every connection attempt
makes exactly 3 total connection attempts (1 initial + 2 retries), each
retry scheduled with the fixed 3000 ms delay, settles
failure(ConnectExhausted), and no event sequence afterwards can ever
produce a 4th attempt. -/
theorem bounded_reconnect_three_attempts (u c : List Nat) (t : Int) :
    ([Ev.socketClose true, Ev.reconnectFire, Ev.socketClose true,
      Ev.reconnectFire, Ev.socketClose true].foldl step
        (startSession u c t)).totalConnects = 3 ∧
    ([Ev.socketClose true, Ev.reconnectFire, Ev.socketClose true,
      Ev.reconnectFire, Ev.socketClose true].foldl step
        (startSession u c t)).scheduledDelays = [3000, 3000] ∧
    ([Ev.socketClose true, Ev.reconnectFire, Ev.socketClose true,
      Ev.reconnectFire, Ev.socketClose true].foldl step
        (startSession u c t)).result =
      some (CaptureResult.failure CaptureFailure.connectExhausted) ∧
    ∀ evs : List Ev,
      (evs.foldl step
        ([Ev.socketClose true, Ev.reconnectFire, Ev.socketClose true,
          Ev.reconnectFire, Ev.socketClose true].foldl step
            (startSession u c t))).totalConnects = 3 := by
  have hF : [Ev.socketClose true, Ev.reconnectFire, Ev.socketClose true,
      Ev.reconnectFire, Ev.socketClose true].foldl step (startSession u c t) =
      { username := u, accessCode := c, timeoutMs := t, alive := false,
        socket := false, reconnectTimeout := none, operationTimeout := none,
        currentFrameBuffer := [], expectedPayloadSize := 0,
        isReceivingImage := false, connectAttempts := 3,
        hasResolvedOrRejected := true, lastFrameData := none,
        result := some (CaptureResult.failure CaptureFailure.connectExhausted),
        authSent := none, scheduledDelays := [3000, 3000],
        totalConnects := 3 } := by
    by_cases ht : t > 0 <;>
      simp [startSession, initialSession, connectStep, step,
            scheduleReconnect, stopStep, ht, List.foldl]
  rw [hF]
  refine ⟨rfl, rfl, rfl, ?_⟩
  intro evs
  exact totalConnects_trace_stable _ evs rfl rfl

/-- Counterexample to claim C5 as stated: the attempt counter is claimed
to be reset only at session creation and never mid-session, but after two
connection attempts a successful TLS connection (the connect callback,
line 129 of the source) resets it from 2 back to 0. -/
theorem connectAttempts_reset_mid_session :
    (step (step (startSession [] [] 0) (Ev.socketClose true))
        Ev.reconnectFire).connectAttempts = 2 ∧
    (step (step (step (startSession [] [] 0) (Ev.socketClose true))
        Ev.reconnectFire) Ev.connectSuccess).connectAttempts = 0 := by
  decide

/-- Claim C5 as amended: the attempt counter starts at 0 at session
creation, is incremented by exactly the connection attempts (a reconnect
timer firing while the session is alive), is reset to 0 by every
successful TLS connection (line 129), and is left unchanged by every
other event. -/
theorem connectAttempts_update (u c : List Nat) (t : Int)
    (s : Session) (e : Ev) :
    (initialSession u c t).connectAttempts = 0 ∧
    (step s e).connectAttempts =
      (if e = Ev.connectSuccess then 0
       else if e = Ev.reconnectFire ∧ s.reconnectTimeout ≠ none ∧
           s.alive = true then
         s.connectAttempts + 1
       else s.connectAttempts) := by
  refine ⟨rfl, ?_⟩
  cases e with
  | connectSuccess => simp [step, connectSuccessStep]
  | dataChunk data =>
    rw [if_neg (by simp), if_neg (by simp)]
    simp only [step, dataStep]
    split
    · rfl
    · exact (drainLoop_spec _ _).1
  | socketError code =>
    rw [if_neg (by simp), if_neg (by simp)]
    simp only [step]
    split
    · rfl
    · split
      · unfold scheduleReconnect
        split
        · rfl
        · dsimp only
          split
          · split <;> simp [stopStep]
          · rfl
      · split <;> rfl
  | socketClose hadError =>
    rw [if_neg (by simp), if_neg (by simp)]
    simp only [step]
    split
    · unfold scheduleReconnect
      split
      · rfl
      · dsimp only
        split
        · split <;> simp [stopStep]
        · rfl
    · split <;> rfl
  | opTimeoutFire =>
    rw [if_neg (by simp), if_neg (by simp)]
    cases hop : s.operationTimeout with
    | none => simp [step, hop]
    | some d => simp only [step, hop]; split <;> simp [stopStep]
  | reconnectFire =>
    cases hrc : s.reconnectTimeout with
    | none => simp [step, hrc]
    | some d =>
      cases hal : s.alive with
      | true =>
        rw [if_neg (by simp), if_pos (by simp [hrc, hal])]
        simp [step, hrc, connectStep, hal]
      | false =>
        rw [if_neg (by simp), if_neg (by simp [hal])]
        have hstep : step s Ev.reconnectFire =
            connectStep { s with reconnectTimeout := none } := by
          simp [step, hrc]
        rw [hstep]
        unfold connectStep
        dsimp only
        rw [hal, if_pos rfl]
        split <;> rfl
  | stopCall =>
    rw [if_neg (by simp), if_neg (by simp)]
    rfl

/-! ### One-iteration equations for the drain loop -/

theorem drainLoop_ret (n : Nat) (s s1 s2 : Session)
    (hc : 0 < s.currentFrameBuffer.length) (ha : s.alive = true)
    (hr : s.hasResolvedOrRejected = false)
    (h1 : headerPhase s = some s1)
    (h2 : payloadPhase s1 = PayloadOutcome.ret s2) :
    drainLoop (n + 1) s = s2 := by
  rw [drainLoop_step, if_pos ⟨hc, ha, hr⟩, h1]
  dsimp only
  rw [h2]

theorem drainLoop_brk (n : Nat) (s s1 s2 : Session)
    (hc : 0 < s.currentFrameBuffer.length) (ha : s.alive = true)
    (hr : s.hasResolvedOrRejected = false)
    (h1 : headerPhase s = some s1)
    (h2 : payloadPhase s1 = PayloadOutcome.brk s2) :
    drainLoop (n + 1) s = s2 := by
  rw [drainLoop_step, if_pos ⟨hc, ha, hr⟩, h1]
  dsimp only
  rw [h2]

theorem drainLoop_none (n : Nat) (s : Session)
    (h1 : headerPhase s = none) :
    drainLoop (n + 1) s = s := by
  rw [drainLoop_step]
  split
  · rw [h1]
  · rfl

theorem drainLoop_next (n : Nat) (s s1 s2 : Session)
    (hc : 0 < s.currentFrameBuffer.length) (ha : s.alive = true)
    (hr : s.hasResolvedOrRejected = false)
    (h1 : headerPhase s = some s1)
    (h2 : payloadPhase s1 = PayloadOutcome.next s2) :
    drainLoop (n + 1) s = drainLoop n s2 := by
  rw [drainLoop_step, if_pos ⟨hc, ha, hr⟩, h1]
  dsimp only
  rw [h2]

theorem drainLoop_empty (n : Nat) (s : Session)
    (h : s.currentFrameBuffer = []) : drainLoop n s = s := by
  cases n with
  | zero => rfl
  | succ n => rw [drainLoop_step, if_neg (by simp [h])]

/-! ### Computing the phases on well-formed inputs -/

theorem headerPhase_none_short (s : Session)
    (hRecv : s.isReceivingImage = false)
    (hlt : s.currentFrameBuffer.length < 16) :
    headerPhase s = none := by
  unfold headerPhase
  rw [if_neg (by simp [hRecv]), if_neg (by omega)]

theorem headerPhase_valid (s : Session) (hdr rest : List Nat) (L : Nat)
    (hRecv : s.isReceivingImage = false)
    (hBuf : s.currentFrameBuffer = hdr ++ rest)
    (hLen : hdr.length = 16) (hRead : readUInt32LE hdr = L)
    (hPos : 0 < L) (hMax : L ≤ MAX_PAYLOAD) :
    headerPhase s = some { s with currentFrameBuffer := rest,
                                  expectedPayloadSize := L,
                                  isReceivingImage := true } := by
  unfold headerPhase
  rw [hBuf, if_neg (by simp [hRecv]),
      if_pos (by simp only [List.length_append, hLen]; omega)]
  dsimp only
  rw [readUInt32LE_append hdr rest (by omega), hRead,
      if_neg (by simp only [MAX_PAYLOAD] at hMax ⊢; omega),
      ← hLen, List.drop_left]

theorem headerPhase_invalid (s : Session) (hdr rest : List Nat) (L : Nat)
    (hRecv : s.isReceivingImage = false)
    (hBuf : s.currentFrameBuffer = hdr ++ rest)
    (hLen : hdr.length = 16) (hRead : readUInt32LE hdr = L)
    (hBad : L = 0 ∨ MAX_PAYLOAD < L) :
    headerPhase s = some { s with currentFrameBuffer := [],
                                  expectedPayloadSize := L,
                                  isReceivingImage := false } := by
  unfold headerPhase
  rw [hBuf, if_neg (by simp [hRecv]),
      if_pos (by simp only [List.length_append, hLen]; omega)]
  dsimp only
  rw [readUInt32LE_append hdr rest (by omega), hRead, if_pos hBad]

theorem payloadPhase_brk_short (s : Session)
    (hRecv : s.isReceivingImage = true)
    (hlt : s.currentFrameBuffer.length < s.expectedPayloadSize) :
    payloadPhase s = PayloadOutcome.brk s := by
  unfold payloadPhase
  rw [if_pos hRecv, if_neg (by omega)]

theorem payloadPhase_accept (s : Session) (payload trailing : List Nat)
    (hRecv : s.isReceivingImage = true)
    (hBuf : s.currentFrameBuffer = payload ++ trailing)
    (hExp : s.expectedPayloadSize = payload.length)
    (hPos : 0 < payload.length)
    (hStart : payload.take 4 = JPEG_START_MARKER)
    (hEnd : payload.drop (payload.length - 2) = JPEG_END_MARKER) :
    payloadPhase s = PayloadOutcome.ret (acceptFrame
      { s with currentFrameBuffer := trailing,
               isReceivingImage := false } payload) := by
  unfold payloadPhase
  rw [if_pos hRecv, hBuf, hExp,
      if_pos (by simp only [List.length_append]; omega)]
  dsimp only
  rw [List.take_left, List.drop_left, if_pos ⟨hPos, hStart, hEnd⟩]

/-- Feeding any chunk that completes exactly one well-formed framing unit
(16-byte header declaring L, L marker-valid payload bytes, arbitrary
trailing bytes) from AwaitingHeader: the session accepts the payload as
its single frame, settles success(payload), stops, and keeps exactly the
trailing bytes buffered. -/
theorem feed_unit_master (s : Session) (data hdr payload trailing : List Nat)
    (L : Nat)
    (hAlive : s.alive = true) (hR : s.hasResolvedOrRejected = false)
    (hRecv : s.isReceivingImage = false)
    (hBuf : s.currentFrameBuffer ++ data = hdr ++ (payload ++ trailing))
    (hLen : hdr.length = 16) (hRead : readUInt32LE hdr = L)
    (hPos : 0 < L) (hMax : L ≤ MAX_PAYLOAD) (hPLen : payload.length = L)
    (hStart : payload.take 4 = JPEG_START_MARKER)
    (hEnd : payload.drop (payload.length - 2) = JPEG_END_MARKER) :
    dataStep s data =
      { s with alive := false, socket := false, reconnectTimeout := none,
               operationTimeout := none, currentFrameBuffer := trailing,
               expectedPayloadSize := L, isReceivingImage := false,
               lastFrameData := some payload, hasResolvedOrRejected := true,
               result := some (CaptureResult.success payload) } := by
  unfold dataStep
  rw [if_neg (by simp [hAlive, hR])]
  have h1 := headerPhase_valid
    { s with currentFrameBuffer := s.currentFrameBuffer ++ data }
    hdr (payload ++ trailing) L hRecv hBuf hLen hRead hPos hMax
  have h2 := payloadPhase_accept
    { s with currentFrameBuffer := payload ++ trailing,
             expectedPayloadSize := L, isReceivingImage := true }
    payload trailing rfl rfl (by dsimp only; omega) (by omega) hStart hEnd
  rw [drainLoop_ret (s.currentFrameBuffer.length + data.length + 1)
        { s with currentFrameBuffer := s.currentFrameBuffer ++ data } _ _
        (by dsimp only; rw [hBuf]; simp only [List.length_append, hLen]; omega)
        hAlive hR h1 h2]
  unfold acceptFrame stopStep
  dsimp only
  rw [if_pos hR]

/-- Claim C6: feeding, from a fresh AwaitingHeader state, a 16-byte header
whose first 4 bytes encode L (0 < L ≤ 15 MiB) little-endian, followed by
exactly L payload bytes that begin with FF D8 FF E0 and end with FF D9,
plus arbitrary trailing bytes, yields exactly one accepted frame equal to
the payload (the session settles success(payload) once), and afterwards
the accumulation buffer holds exactly the trailing bytes. -/
theorem exact_extraction (s : Session) (hdr payload trailing : List Nat)
    (L : Nat)
    (hAlive : s.alive = true) (hR : s.hasResolvedOrRejected = false)
    (hRecv : s.isReceivingImage = false) (hBuf : s.currentFrameBuffer = [])
    (hLen : hdr.length = 16) (hRead : readUInt32LE hdr = L)
    (hPos : 0 < L) (hMax : L ≤ MAX_PAYLOAD) (hPLen : payload.length = L)
    (hStart : payload.take 4 = JPEG_START_MARKER)
    (hEnd : payload.drop (payload.length - 2) = JPEG_END_MARKER) :
    (dataStep s (hdr ++ payload ++ trailing)).result
      = some (CaptureResult.success payload) ∧
    (dataStep s (hdr ++ payload ++ trailing)).currentFrameBuffer = trailing ∧
    (dataStep s (hdr ++ payload ++ trailing)).lastFrameData = some payload ∧
    (dataStep s (hdr ++ payload ++ trailing)).hasResolvedOrRejected = true := by
  have hm := feed_unit_master s (hdr ++ payload ++ trailing) hdr payload
    trailing L hAlive hR hRecv
    (by rw [hBuf, List.nil_append, List.append_assoc])
    hLen hRead hPos hMax hPLen hStart hEnd
  rw [hm]
  exact ⟨rfl, rfl, rfl, rfl⟩

/-- Witness for C6: a 6-byte JPEG behind a header declaring length 6,
with two trailing bytes, fed to a freshly started session. -/
theorem exact_extraction_witness :
    (dataStep (startSession [98] [49] 30000)
        ([6, 0, 0, 0, 0, 0, 0, 0, 0, 0, 0, 0, 0, 0, 0, 0] ++
         [255, 216, 255, 224, 255, 217] ++ [9, 9])).result
      = some (CaptureResult.success [255, 216, 255, 224, 255, 217]) ∧
    (dataStep (startSession [98] [49] 30000)
        ([6, 0, 0, 0, 0, 0, 0, 0, 0, 0, 0, 0, 0, 0, 0, 0] ++
         [255, 216, 255, 224, 255, 217] ++ [9, 9])).currentFrameBuffer
      = [9, 9] ∧
    (dataStep (startSession [98] [49] 30000)
        ([6, 0, 0, 0, 0, 0, 0, 0, 0, 0, 0, 0, 0, 0, 0, 0] ++
         [255, 216, 255, 224, 255, 217] ++ [9, 9])).lastFrameData
      = some [255, 216, 255, 224, 255, 217] ∧
    (dataStep (startSession [98] [49] 30000)
        ([6, 0, 0, 0, 0, 0, 0, 0, 0, 0, 0, 0, 0, 0, 0, 0] ++
         [255, 216, 255, 224, 255, 217] ++ [9, 9])).hasResolvedOrRejected
      = true :=
  exact_extraction (startSession [98] [49] 30000)
    [6, 0, 0, 0, 0, 0, 0, 0, 0, 0, 0, 0, 0, 0, 0, 0]
    [255, 216, 255, 224, 255, 217] [9, 9] 6
    (by decide) (by decide) (by decide) (by decide) (by decide) (by decide)
    (by decide) (by decide) (by decide) (by decide) (by decide)

/-- Counterexample to claim C3 as stated: the claim says only the one
malformed 16-byte header is dropped and the immediately following
buffered bytes are kept as the next fresh header, but the code clears the
ENTIRE accumulation buffer (line 153): after a header declaring
L = 16 MiB arrives together with three extra bytes, the buffer is empty,
not [7, 7, 7]. -/
theorem bad_header_drops_tail :
    (dataStep (startSession [] [] 0)
        (([0, 0, 0, 1] ++ List.replicate 12 0) ++ [7, 7, 7])).currentFrameBuffer
      ≠ (([0, 0, 0, 1] ++ List.replicate 12 0) ++ [7, 7, 7]).drop 16 ∧
    (dataStep (startSession [] [] 0)
        (([0, 0, 0, 1] ++ List.replicate 12 0) ++ [7, 7, 7])).currentFrameBuffer
      = [] := by
  decide

/-- Claim C3 as amended: on a buffered 16-byte header whose declared
length L is 0 or above 15 MiB, the decoder raises no caller-visible error
(result and terminal flag are untouched) and returns to AwaitingHeader,
but it discards its ENTIRE accumulation buffer — the 16 header bytes and
every byte after them — so only bytes arriving in later feed calls are
parsed as the next fresh header. -/
theorem bad_header_resync (s : Session) (hdr rest : List Nat) (L : Nat)
    (hAlive : s.alive = true) (hR : s.hasResolvedOrRejected = false)
    (hRecv : s.isReceivingImage = false) (hBuf : s.currentFrameBuffer = [])
    (hLen : hdr.length = 16) (hRead : readUInt32LE hdr = L)
    (hBad : L = 0 ∨ MAX_PAYLOAD < L) :
    dataStep s (hdr ++ rest) =
      { s with currentFrameBuffer := [], expectedPayloadSize := L,
               isReceivingImage := false } := by
  unfold dataStep
  rw [if_neg (by simp [hAlive, hR])]
  have h1 := headerPhase_invalid
    { s with currentFrameBuffer := s.currentFrameBuffer ++ (hdr ++ rest) }
    hdr rest L hRecv (by dsimp only; rw [hBuf, List.nil_append]) hLen hRead hBad
  have h2 : payloadPhase { s with currentFrameBuffer := ([] : List Nat),
                                  expectedPayloadSize := L,
                                  isReceivingImage := false } =
      PayloadOutcome.next { s with currentFrameBuffer := ([] : List Nat),
                                   expectedPayloadSize := L,
                                   isReceivingImage := false } := by
    unfold payloadPhase
    rw [if_neg (by simp)]
  rw [drainLoop_next (s.currentFrameBuffer.length + (hdr ++ rest).length + 1)
        { s with currentFrameBuffer := s.currentFrameBuffer ++ (hdr ++ rest) }
        _ _
        (by dsimp only
            rw [hBuf, List.nil_append]
            simp only [List.length_append, hLen]
            omega)
        hAlive hR h1 h2]
  exact drainLoop_empty _ _ rfl

/-- Witness for the amended C3 at a header declaring L = 0 followed by
two extra bytes: everything buffered is discarded. -/
theorem bad_header_resync_witness :
    dataStep (startSession [] [] 0) (List.replicate 16 0 ++ [5, 6]) =
      { startSession [] [] 0 with currentFrameBuffer := [],
                                  expectedPayloadSize := 0,
                                  isReceivingImage := false } :=
  bad_header_resync (startSession [] [] 0) (List.replicate 16 0) [5, 6] 0
    (by decide) (by decide) (by decide) (by decide) (by decide) (by decide)
    (Or.inl rfl)

/-- Feeding a chunk that still leaves fewer than 16 buffered bytes in
AwaitingHeader only appends to the accumulation buffer. -/
theorem feed_partial_header (s : Session) (data : List Nat)
    (hAlive : s.alive = true) (hR : s.hasResolvedOrRejected = false)
    (hRecv : s.isReceivingImage = false)
    (hlt : s.currentFrameBuffer.length + data.length < 16) :
    dataStep s data =
      { s with currentFrameBuffer := s.currentFrameBuffer ++ data } := by
  unfold dataStep
  rw [if_neg (by simp [hAlive, hR])]
  exact drainLoop_none _ _ (headerPhase_none_short _ hRecv
    (by dsimp only; simp only [List.length_append]; omega))

/-- Feeding a chunk that completes a valid header but not yet the declared
payload consumes the header and waits in AwaitingPayload(L). -/
theorem feed_partial_payload (s : Session) (data hdr part : List Nat)
    (L : Nat)
    (hAlive : s.alive = true) (hR : s.hasResolvedOrRejected = false)
    (hRecv : s.isReceivingImage = false)
    (hBuf : s.currentFrameBuffer ++ data = hdr ++ part)
    (hLen : hdr.length = 16) (hRead : readUInt32LE hdr = L)
    (hPos : 0 < L) (hMax : L ≤ MAX_PAYLOAD)
    (hlt : part.length < L) :
    dataStep s data =
      { s with currentFrameBuffer := part, expectedPayloadSize := L,
               isReceivingImage := true } := by
  unfold dataStep
  rw [if_neg (by simp [hAlive, hR])]
  have h1 := headerPhase_valid
    { s with currentFrameBuffer := s.currentFrameBuffer ++ data }
    hdr part L hRecv hBuf hLen hRead hPos hMax
  have h2 := payloadPhase_brk_short
    { s with currentFrameBuffer := part, expectedPayloadSize := L,
             isReceivingImage := true }
    rfl (by dsimp only; omega)
  rw [drainLoop_brk (s.currentFrameBuffer.length + data.length + 1)
        { s with currentFrameBuffer := s.currentFrameBuffer ++ data } _ _
        (by dsimp only; rw [hBuf]; simp only [List.length_append, hLen]; omega)
        hAlive hR h1 h2]

/-- Feeding the chunk that completes the pending payload from
AwaitingPayload accepts the frame and settles success(payload). -/
theorem feed_payload_completion (s : Session) (data payload : List Nat)
    (hAlive : s.alive = true) (hR : s.hasResolvedOrRejected = false)
    (hRecv : s.isReceivingImage = true)
    (hBuf : s.currentFrameBuffer ++ data = payload)
    (hExp : s.expectedPayloadSize = payload.length)
    (hPos : 0 < payload.length)
    (hStart : payload.take 4 = JPEG_START_MARKER)
    (hEnd : payload.drop (payload.length - 2) = JPEG_END_MARKER) :
    dataStep s data =
      { s with alive := false, socket := false, reconnectTimeout := none,
               operationTimeout := none, currentFrameBuffer := [],
               isReceivingImage := false, lastFrameData := some payload,
               hasResolvedOrRejected := true,
               result := some (CaptureResult.success payload) } := by
  unfold dataStep
  rw [if_neg (by simp [hAlive, hR])]
  have h1 : headerPhase { s with
      currentFrameBuffer := s.currentFrameBuffer ++ data } =
      some { s with currentFrameBuffer := s.currentFrameBuffer ++ data } := by
    unfold headerPhase
    rw [if_pos hRecv]
  have h2 := payloadPhase_accept
    { s with currentFrameBuffer := s.currentFrameBuffer ++ data }
    payload [] hRecv (by dsimp only; rw [hBuf, List.append_nil])
    (by dsimp only; exact hExp) hPos hStart hEnd
  rw [drainLoop_ret (s.currentFrameBuffer.length + data.length + 1)
        { s with currentFrameBuffer := s.currentFrameBuffer ++ data } _ _
        (by dsimp only
            have hlen := congrArg List.length hBuf
            simp only [List.length_append] at hlen ⊢
            omega)
        hAlive hR h1 h2]
  unfold acceptFrame stopStep
  dsimp only
  rw [if_pos hR]

/-- Counterexample to claim C2 as stated: chunk-boundary invariance fails
on the code.  For the byte sequence [16 zero bytes, a malformed header
declaring L = 0] followed by a complete valid unit, feeding everything in
one call accepts NO frame (the malformed-header branch wipes the whole
buffer, including the valid unit), while feeding the same bytes split
after the malformed header accepts the valid frame. -/
theorem chunk_invariance_fails :
    (dataStep (startSession [] [] 0)
        (List.replicate 16 0 ++
         ([6, 0, 0, 0] ++ List.replicate 12 0 ++
          [255, 216, 255, 224, 255, 217]))).result = none ∧
    (dataStep (dataStep (startSession [] [] 0)
        ((List.replicate 16 0 ++
          ([6, 0, 0, 0] ++ List.replicate 12 0 ++
           [255, 216, 255, 224, 255, 217])).take 16))
        ((List.replicate 16 0 ++
          ([6, 0, 0, 0] ++ List.replicate 12 0 ++
           [255, 216, 255, 224, 255, 217])).drop 16)).result
      = some (CaptureResult.success [255, 216, 255, 224, 255, 217]) := by
  decide

/-- Claim C2 as amended: for a single well-formed framing unit (16-byte
header declaring L with 0 < L ≤ 15 MiB followed by exactly L marker-valid
payload bytes) fed to a fresh AwaitingHeader state, splitting the bytes
at ANY boundary into two feed calls produces exactly the same accepted
frame and the same final decoder state as feeding the unit whole.
(The original unrestricted claim is false: a malformed header discards
all buffered bytes after it, and bytes delivered after acceptance are
ignored — see the counterexample.) -/
theorem chunk_invariance_single_unit (s : Session) (hdr payload : List Nat)
    (L i : Nat)
    (hAlive : s.alive = true) (hR : s.hasResolvedOrRejected = false)
    (hRecv : s.isReceivingImage = false) (hBuf : s.currentFrameBuffer = [])
    (hLen : hdr.length = 16) (hRead : readUInt32LE hdr = L)
    (hPos : 0 < L) (hMax : L ≤ MAX_PAYLOAD) (hPLen : payload.length = L)
    (hStart : payload.take 4 = JPEG_START_MARKER)
    (hEnd : payload.drop (payload.length - 2) = JPEG_END_MARKER)
    (hi : i ≤ (hdr ++ payload).length) :
    dataStep (dataStep s ((hdr ++ payload).take i)) ((hdr ++ payload).drop i)
      = dataStep s (hdr ++ payload) := by
  have hTot : (hdr ++ payload).length = 16 + L := by
    simp [List.length_append, hLen, hPLen]
  have hwhole := feed_unit_master s (hdr ++ payload) hdr payload [] L hAlive
    hR hRecv (by rw [hBuf, List.nil_append, List.append_nil]) hLen hRead hPos
    hMax hPLen hStart hEnd
  by_cases h16 : i < 16
  · have hfirst := feed_partial_header s ((hdr ++ payload).take i) hAlive hR
      hRecv
      (by rw [hBuf]
          simp only [List.length_nil, List.length_take, Nat.zero_add, hTot]
          omega)
    rw [hfirst, hBuf, List.nil_append]
    have hsecond := feed_unit_master
      { s with currentFrameBuffer := (hdr ++ payload).take i }
      ((hdr ++ payload).drop i) hdr payload [] L hAlive hR hRecv
      (by dsimp only; rw [List.take_append_drop, List.append_nil])
      hLen hRead hPos hMax hPLen hStart hEnd
    rw [hsecond, hwhole]
  · by_cases hiL : i < 16 + L
    · have hfirst := feed_partial_payload s ((hdr ++ payload).take i) hdr
        (payload.take (i - 16)) L hAlive hR hRecv
        (by rw [hBuf, List.nil_append, List.take_append_eq_append_take,
                List.take_of_length_le (by rw [hLen]; omega), hLen])
        hLen hRead hPos hMax
        (by simp only [List.length_take, hPLen]; omega)
      rw [hfirst]
      have hsecond := feed_payload_completion
        { s with currentFrameBuffer := payload.take (i - 16),
                 expectedPayloadSize := L, isReceivingImage := true }
        ((hdr ++ payload).drop i) payload hAlive hR rfl
        (by dsimp only
            rw [List.drop_append_eq_append_drop,
                List.drop_eq_nil_of_le (by rw [hLen]; omega),
                List.nil_append, hLen, List.take_append_drop])
        (by dsimp only; omega) (by omega) hStart hEnd
      rw [hsecond, hwhole]
    · have htake : (hdr ++ payload).take i = hdr ++ payload :=
        List.take_of_length_le (by rw [hTot]; omega)
      have hdrop : (hdr ++ payload).drop i = [] :=
        List.drop_eq_nil_of_le (by rw [hTot]; omega)
      rw [htake, hdrop, hwhole]
      simp [dataStep]

/-- Witness for the amended C2: the 22-byte valid unit split after
byte 18 (mid-payload) gives the same outcome as feeding it whole. -/
theorem chunk_invariance_single_unit_witness :
    dataStep (dataStep (startSession [98] [49] 30000)
        (([6, 0, 0, 0, 0, 0, 0, 0, 0, 0, 0, 0, 0, 0, 0, 0] ++
          [255, 216, 255, 224, 255, 217]).take 18))
        (([6, 0, 0, 0, 0, 0, 0, 0, 0, 0, 0, 0, 0, 0, 0, 0] ++
          [255, 216, 255, 224, 255, 217]).drop 18)
      = dataStep (startSession [98] [49] 30000)
          ([6, 0, 0, 0, 0, 0, 0, 0, 0, 0, 0, 0, 0, 0, 0, 0] ++
           [255, 216, 255, 224, 255, 217]) :=
  chunk_invariance_single_unit (startSession [98] [49] 30000)
    [6, 0, 0, 0, 0, 0, 0, 0, 0, 0, 0, 0, 0, 0, 0, 0]
    [255, 216, 255, 224, 255, 217] 6 18
    (by decide) (by decide) (by decide) (by decide) (by decide) (by decide)
    (by decide) (by decide) (by decide) (by decide) (by decide) (by decide)

/-- Counterexample to claim C7 as stated: the public operation
captureSingleFrameFromPrinter does NOT resolve its caller with the frame
bytes — its success callback saves the image itself and resolves the
outer promise with the saved file path (line 295). -/
theorem capture_resolves_with_path_not_bytes :
    (captureSuccessCallback
        ['o', 'u', 't'] ['1', '0', '.', '0', '.', '0', '.', '2']
        [255, 216, 255, 224, 255, 217]).settled
      = SettledValue.filePath
          ['o', 'u', 't', '/', '1', '0', '_', '0', '_', '0', '_', '2',
           '.', 'j', 'p', 'g'] ∧
    (captureSuccessCallback
        ['o', 'u', 't'] ['1', '0', '.', '0', '.', '0', '.', '2']
        [255, 216, 255, 224, 255, 217]).settled
      ≠ SettledValue.bytes [255, 216, 255, 224, 255, 217] := by
  decide

/-- Claim C7 as amended: on a successful capture the session settles with
the frame bytes, which are handed to the success callback; that callback
(part of the public captureSingleFrameFromPrinter, lines 281-302) then
persists the bytes itself under <sanitized-ip>.jpg in outputDir and
resolves the caller with the saved file path — never with the bytes. -/
theorem capture_success_resolves_path (s : Session)
    (hdr payload trailing : List Nat) (L : Nat)
    (outputDir printerIp : List Char)
    (hAlive : s.alive = true) (hR : s.hasResolvedOrRejected = false)
    (hRecv : s.isReceivingImage = false) (hBuf : s.currentFrameBuffer = [])
    (hLen : hdr.length = 16) (hRead : readUInt32LE hdr = L)
    (hPos : 0 < L) (hMax : L ≤ MAX_PAYLOAD) (hPLen : payload.length = L)
    (hStart : payload.take 4 = JPEG_START_MARKER)
    (hEnd : payload.drop (payload.length - 2) = JPEG_END_MARKER) :
    (dataStep s (hdr ++ payload ++ trailing)).result
      = some (CaptureResult.success payload) ∧
    (captureSuccessCallback outputDir printerIp payload).written = payload ∧
    (captureSuccessCallback outputDir printerIp payload).savedPath
      = pathResolve outputDir (sanitizeHost printerIp ++ ['.', 'j', 'p', 'g']) ∧
    (captureSuccessCallback outputDir printerIp payload).settled
      = SettledValue.filePath
          (pathResolve outputDir
            (sanitizeHost printerIp ++ ['.', 'j', 'p', 'g'])) ∧
    ∀ b : List Nat,
      (captureSuccessCallback outputDir printerIp payload).settled
        ≠ SettledValue.bytes b := by
  refine ⟨?_, rfl, rfl, rfl, ?_⟩
  · have hm := feed_unit_master s (hdr ++ payload ++ trailing) hdr payload
      trailing L hAlive hR hRecv
      (by rw [hBuf, List.nil_append, List.append_assoc])
      hLen hRead hPos hMax hPLen hStart hEnd
    rw [hm]
  · intro b
    simp [captureSuccessCallback]

/-- Witness for the amended C7 with a concrete unit, output directory and
printer host. -/
theorem capture_success_resolves_path_witness :
    (dataStep (startSession [98] [49] 45000)
        ([6, 0, 0, 0, 0, 0, 0, 0, 0, 0, 0, 0, 0, 0, 0, 0] ++
         [255, 216, 255, 224, 255, 217] ++ [])).result
      = some (CaptureResult.success [255, 216, 255, 224, 255, 217]) ∧
    (captureSuccessCallback ['d'] ['p', '.', '1']
        [255, 216, 255, 224, 255, 217]).written
      = [255, 216, 255, 224, 255, 217] ∧
    (captureSuccessCallback ['d'] ['p', '.', '1']
        [255, 216, 255, 224, 255, 217]).savedPath
      = pathResolve ['d'] (sanitizeHost ['p', '.', '1'] ++ ['.', 'j', 'p', 'g']) ∧
    (captureSuccessCallback ['d'] ['p', '.', '1']
        [255, 216, 255, 224, 255, 217]).settled
      = SettledValue.filePath
          (pathResolve ['d']
            (sanitizeHost ['p', '.', '1'] ++ ['.', 'j', 'p', 'g'])) ∧
    ∀ b : List Nat,
      (captureSuccessCallback ['d'] ['p', '.', '1']
          [255, 216, 255, 224, 255, 217]).settled
        ≠ SettledValue.bytes b :=
  capture_success_resolves_path (startSession [98] [49] 45000)
    [6, 0, 0, 0, 0, 0, 0, 0, 0, 0, 0, 0, 0, 0, 0, 0]
    [255, 216, 255, 224, 255, 217] [] 6 ['d'] ['p', '.', '1']
    (by decide) (by decide) (by decide) (by decide) (by decide) (by decide)
    (by decide) (by decide) (by decide) (by decide) (by decide)

/-! ### The authentication record -/

theorem writeBytes_replicate (m x : Nat) (src : List Nat) :
    writeBytes (List.replicate m x) 0 src
      = src ++ List.replicate (m - src.length) x := by
  unfold writeBytes
  simp [List.drop_replicate]

theorem writeBytes_junction (a src : List Nat) (m x off : Nat)
    (hoff : off = a.length) :
    writeBytes (a ++ List.replicate m x) off src
      = a ++ (src ++ List.replicate (m - src.length) x) := by
  unfold writeBytes
  subst hoff
  rw [List.take_left, List.drop_append_eq_append_drop,
      List.drop_eq_nil_of_le (by omega), List.nil_append,
      List.drop_replicate, Nat.add_sub_cancel_left, List.append_assoc]

/-- Claim C8: for usernames and access credentials of at most 32 bytes,
the authentication record is exactly 80 bytes: bytes 0-3 the magic
constant 0x40 little-endian, bytes 4-7 the message-type constant 0x3000
little-endian, bytes 8-15 zero, bytes 16-47 the username left-justified
and zero-padded to 32 bytes, bytes 48-79 the access credential
left-justified and zero-padded to 32 bytes.  (The connect callback writes
exactly this record before any read: connectSuccessStep records it.) -/
theorem auth_record_layout (u c : List Nat)
    (hu : u.length ≤ 32) (hc : c.length ≤ 32) :
    _buildAuthData u c
      = [0x40, 0, 0, 0, 0x00, 0x30, 0, 0, 0, 0, 0, 0, 0, 0, 0, 0] ++
        (u ++ List.replicate (32 - u.length) 0) ++
        (c ++ List.replicate (32 - c.length) 0) ∧
    (_buildAuthData u c).length = 80 ∧
    ∀ s : Session, (step s Ev.connectSuccess).authSent
      = some (_buildAuthData s.username s.accessCode) := by
  have s1 : writeBytes (List.replicate 80 0) 0 [0x40, 0, 0, 0]
      = [0x40, 0, 0, 0] ++ List.replicate 76 0 := by
    rw [writeBytes_replicate]
    simp
  have s2 : writeBytes ([0x40, 0, 0, 0] ++ List.replicate 76 0) 4
        [0x00, 0x30, 0, 0]
      = [0x40, 0, 0, 0, 0x00, 0x30, 0, 0] ++ List.replicate 72 0 := by
    rw [writeBytes_junction _ _ _ _ 4 (by rfl)]
    simp [List.append_assoc]
  have s3 : writeBytes
        ([0x40, 0, 0, 0, 0x00, 0x30, 0, 0] ++ List.replicate 72 0) 8
        [0, 0, 0, 0]
      = [0x40, 0, 0, 0, 0x00, 0x30, 0, 0, 0, 0, 0, 0] ++
        List.replicate 68 0 := by
    rw [writeBytes_junction _ _ _ _ 8 (by rfl)]
    simp [List.append_assoc]
  have s4 : writeBytes
        ([0x40, 0, 0, 0, 0x00, 0x30, 0, 0, 0, 0, 0, 0] ++
         List.replicate 68 0) 12 [0, 0, 0, 0]
      = [0x40, 0, 0, 0, 0x00, 0x30, 0, 0, 0, 0, 0, 0, 0, 0, 0, 0] ++
        List.replicate 64 0 := by
    rw [writeBytes_junction _ _ _ _ 12 (by rfl)]
    simp [List.append_assoc]
  have s5 : writeBytes
        ([0x40, 0, 0, 0, 0x00, 0x30, 0, 0, 0, 0, 0, 0, 0, 0, 0, 0] ++
         List.replicate 64 0) 16 u
      = ([0x40, 0, 0, 0, 0x00, 0x30, 0, 0, 0, 0, 0, 0, 0, 0, 0, 0] ++ u)
        ++ List.replicate (64 - u.length) 0 := by
    rw [writeBytes_junction _ _ _ _ 16 (by rfl)]
    simp [List.append_assoc]
  have s6 : writeBytes
        (([0x40, 0, 0, 0, 0x00, 0x30, 0, 0, 0, 0, 0, 0, 0, 0, 0, 0] ++ u)
         ++ List.replicate (64 - u.length) 0) (16 + u.length)
        (List.replicate (32 - u.length) 0)
      = (([0x40, 0, 0, 0, 0x00, 0x30, 0, 0, 0, 0, 0, 0, 0, 0, 0, 0] ++ u)
         ++ List.replicate (32 - u.length) 0) ++ List.replicate 32 0 := by
    rw [writeBytes_junction _ _ _ _ (16 + u.length)
          (by simp only [List.length_append, List.length_cons,
                List.length_nil]
              try omega)]
    rw [List.length_replicate,
        show 64 - u.length - (32 - u.length) = 32 from by omega]
    simp [List.append_assoc]
  have s7 : writeBytes
        ((([0x40, 0, 0, 0, 0x00, 0x30, 0, 0, 0, 0, 0, 0, 0, 0, 0, 0] ++ u)
          ++ List.replicate (32 - u.length) 0) ++ List.replicate 32 0)
        (16 + u.length + (32 - u.length)) c
      = ((([0x40, 0, 0, 0, 0x00, 0x30, 0, 0, 0, 0, 0, 0, 0, 0, 0, 0] ++ u)
          ++ List.replicate (32 - u.length) 0) ++ c)
        ++ List.replicate (32 - c.length) 0 := by
    rw [writeBytes_junction _ _ _ _ (16 + u.length + (32 - u.length))
          (by simp only [List.length_append, List.length_replicate,
                List.length_cons, List.length_nil]
              try omega)]
    simp [List.append_assoc]
  have s8 : writeBytes
        (((([0x40, 0, 0, 0, 0x00, 0x30, 0, 0, 0, 0, 0, 0, 0, 0, 0, 0] ++ u)
           ++ List.replicate (32 - u.length) 0) ++ c)
         ++ List.replicate (32 - c.length) 0)
        (16 + u.length + (32 - u.length) + c.length)
        (List.replicate (32 - c.length) 0)
      = ((([0x40, 0, 0, 0, 0x00, 0x30, 0, 0, 0, 0, 0, 0, 0, 0, 0, 0] ++ u)
          ++ List.replicate (32 - u.length) 0) ++ c)
        ++ List.replicate (32 - c.length) 0 := by
    rw [writeBytes_junction _ _ _ _
          (16 + u.length + (32 - u.length) + c.length)
          (by simp only [List.length_append, List.length_replicate,
                List.length_cons, List.length_nil]
              try omega)]
    rw [List.length_replicate, Nat.sub_self, List.replicate_zero,
        List.append_nil]
  have key : _buildAuthData u c
      = [0x40, 0, 0, 0, 0x00, 0x30, 0, 0, 0, 0, 0, 0, 0, 0, 0, 0] ++
        (u ++ List.replicate (32 - u.length) 0) ++
        (c ++ List.replicate (32 - c.length) 0) := by
    unfold _buildAuthData
    dsimp only
    rw [s1, s2, s3, s4, s5, s6, s7, s8]
    simp [List.append_assoc]
  refine ⟨key, ?_, fun s => rfl⟩
  rw [key]
  simp only [List.length_append, List.length_replicate, List.length_cons,
    List.length_nil]
  omega

/-- Witness for C8 with username "bblp" and access code "123" in ASCII. -/
theorem auth_record_layout_witness :
    _buildAuthData [98, 98, 108, 112] [49, 50, 51]
      = [0x40, 0, 0, 0, 0x00, 0x30, 0, 0, 0, 0, 0, 0, 0, 0, 0, 0] ++
        ([98, 98, 108, 112] ++
         List.replicate (32 - List.length [98, 98, 108, 112]) 0) ++
        ([49, 50, 51] ++ List.replicate (32 - List.length [49, 50, 51]) 0) ∧
    (_buildAuthData [98, 98, 108, 112] [49, 50, 51]).length = 80 ∧
    ∀ s : Session, (step s Ev.connectSuccess).authSent
      = some (_buildAuthData s.username s.accessCode) :=
  auth_record_layout [98, 98, 108, 112] [49, 50, 51] (by decide) (by decide)
